import Mathlib

/-!
Verification of the Gemini-Backend-Clone job pipeline against its
natural-language specification.

The definitions below are a shallow embedding of the JavaScript source:

* `src/jobs/geminiQueue.js` — the BullMQ queue/worker construction, the job
  processor `processGeminiJob`, the development fallback (mock) queue,
  `addGeminiJob` and `getQueueStats`;
* `src/services/geminiService.js` — `generateResponse` and
  `generateResponseWithContext` (history query + prompt assembly);
* `src/services/cacheService.js` — the chatroom-list cache wrappers;
* the chatroom route handlers (create / list / update / delete chatroom and
  send message) from `src/routes/chatroom.js`.

Database rows are plain Lean structures, the messages table is a
`List Message`, and each `await pool.query(...)` call site carries a boolean
flag in `PoolBehavior` saying whether that particular query rejects (throws).
The external Gemini API is a function `String → Except GenErr String` from the
prompt to either the generated text or a thrown error.  Redis is a small
key/value state with a failure flag.  Express responses are modelled as an
event trace; the HTTP caller observes the first `respond` event.
-/

/-- Status column of a message row (`pending | processing | completed | failed`). -/
inductive MsgStatus where
  | pending
  | processing
  | completed
  | failed
deriving DecidableEq, Repr

/-- `message_type` column (`user | ai`). -/
inductive MsgType where
  | user
  | ai
deriving DecidableEq, Repr

/-- A row of the `messages` table (the columns used by the core pipeline). -/
structure Message where
  id : Nat
  chatroom_id : Nat
  user_id : Nat
  content : String
  message_type : MsgType
  gemini_response : Option String
  status : MsgStatus
  created_at : Nat
deriving DecidableEq, Repr

/-- `SELECT ... FROM messages WHERE id = mid` (first matching row). -/
def getMsg (msgs : List Message) (mid : Nat) : Option Message :=
  msgs.find? (fun m => m.id == mid)

/-- `UPDATE messages SET ... WHERE id = mid`: apply `g` to every row with id `mid`. -/
def updateMsg (msgs : List Message) (mid : Nat) (g : Message → Message) : List Message :=
  msgs.map (fun m => if m.id == mid then g m else m)

/-- `UPDATE messages SET status = 'processing' WHERE id = $2`. -/
def markProcessing (msgs : List Message) (mid : Nat) : List Message :=
  updateMsg msgs mid (fun m => { m with status := MsgStatus.processing })

/-- `UPDATE messages SET gemini_response = $1, content = $2, status = 'completed', ... WHERE id = $4`. -/
def markCompleted (msgs : List Message) (mid : Nat) (resp : String) : List Message :=
  updateMsg msgs mid (fun m =>
    { m with gemini_response := some resp, content := resp, status := MsgStatus.completed })

/-- The user-safe text written by the job processor's catch block. -/
def failedFallbackText : String :=
  "Sorry, I encountered an error processing your request. Please try again."

/-- `UPDATE messages SET status = 'failed', content = 'Sorry, ...' WHERE id = $3`. -/
def markFailed (msgs : List Message) (mid : Nat) : List Message :=
  updateMsg msgs mid (fun m =>
    { m with status := MsgStatus.failed, content := failedFallbackText })

/-- Error thrown by the Gemini API call (`model.generateContent` rejecting). -/
inductive GenErr where
  | timeout
  | rateLimited
  | serviceError
deriving DecidableEq, Repr

/-- The external Gemini model: from the prompt to generated text, or a thrown error. -/
abbrev GenApi := String → Except GenErr String

/-- One line of the prompt context: `` `${msg.message_type === 'user' ? 'User' : 'Assistant'}: ${msg.content}` ``. -/
def formatHistoryLine (m : Message) : String :=
  (if m.message_type = MsgType.user then "User: " else "Assistant: ") ++ m.content

/-- Prompt assembly inside `generateResponse`. -/
def buildPrompt (userMessage : String) (conversationHistory : List Message) : String :=
  if conversationHistory.length > 0 then
    let context := String.intercalate "\n" (conversationHistory.map formatHistoryLine)
    "Previous conversation:\n" ++ context ++ "\n\nUser: " ++ userMessage
  else
    userMessage

/-- The fallback string returned by `generateResponse` when the API call throws. -/
def apologyFallbackText : String :=
  "I apologize, but I encountered an error while processing your request. Please try again later."

/-- `generateResponse(userMessage, conversationHistory)`: call the model with the
assembled prompt; on any thrown error, catch it and return the apology fallback. -/
def generateResponse (api : GenApi) (userMessage : String)
    (conversationHistory : List Message) : String :=
  match api (buildPrompt userMessage conversationHistory) with
  | Except.ok t => t
  | Except.error _ => apologyFallbackText

/-- Descending order on `created_at` (the `ORDER BY created_at DESC` of the history query). -/
def createdDesc (a b : Message) : Prop := b.created_at ≤ a.created_at

instance : DecidableRel createdDesc := fun a b =>
  inferInstanceAs (Decidable (b.created_at ≤ a.created_at))

/-- The history query of `generateResponseWithContext`:
`SELECT ... FROM messages WHERE chatroom_id = $1 AND status = 'completed'
ORDER BY created_at DESC LIMIT 10`, followed by `.reverse()` in JS. -/
def fetchHistory (msgs : List Message) (chatroomId : Nat) : List Message :=
  ((List.insertionSort createdDesc
      (msgs.filter (fun m => m.chatroom_id == chatroomId && m.status == MsgStatus.completed))).take 10).reverse

/-- Which `await pool.query(...)` call sites reject (throw), one flag per site. -/
structure PoolBehavior where
  failSelectChatroom : Bool
  failInsertUserMsg : Bool
  failInsertAiMsg : Bool
  failUpdateProcessing : Bool
  failSelectHistory : Bool
  failUpdateCompleted : Bool
  failUpdateFailed : Bool
  failUpdateChatroomTs : Bool
  failIncrementUsage : Bool
  failInsertChatroom : Bool
  failUpdateChatroom : Bool
  failDeleteChatroom : Bool
  failQueueAdd : Bool
deriving DecidableEq, Repr

/-- A healthy database and queue backend: no query rejects. -/
def poolOk : PoolBehavior :=
  { failSelectChatroom := false, failInsertUserMsg := false, failInsertAiMsg := false,
    failUpdateProcessing := false, failSelectHistory := false, failUpdateCompleted := false,
    failUpdateFailed := false, failUpdateChatroomTs := false, failIncrementUsage := false,
    failInsertChatroom := false, failUpdateChatroom := false, failDeleteChatroom := false,
    failQueueAdd := false }

/-- `job.data` of a queued generation job. -/
structure JobData where
  messageId : Nat
  chatroomId : Nat
  userId : Nat
  userMessage : String
deriving DecidableEq, Repr

/-- Result of one run of the job processor: the messages table afterwards, and
whether the run threw (rejected) to its caller. -/
structure JobOutcome where
  db : List Message
  threw : Bool
deriving DecidableEq, Repr

/-- `generateResponseWithContext(userMessage, chatroomId, pool)`: fetch the last
10 completed messages as context (on a query error, fall back to no context),
then call `generateResponse`.  Both catch blocks mean the function never throws. -/
def generateResponseWithContext (p : PoolBehavior) (api : GenApi)
    (msgs : List Message) (userMessage : String) (chatroomId : Nat) : String :=
  if p.failSelectHistory then
    generateResponse api userMessage []
  else
    generateResponse api userMessage (fetchHistory msgs chatroomId)

/-- `processGeminiJob(job)`: mark the message `processing`, generate the
response with context, and mark it `completed`; on any thrown error the catch
block marks the message `failed` with the user-safe text and rethrows.
Note that `generateResponseWithContext` never throws, so the only throwers are
the two `UPDATE` queries (and, inside the catch, the failed-update query). -/
def processGeminiJob (p : PoolBehavior) (api : GenApi)
    (msgs : List Message) (jd : JobData) : JobOutcome :=
  if p.failUpdateProcessing then
    if p.failUpdateFailed then
      { db := msgs, threw := true }
    else
      { db := markFailed msgs jd.messageId, threw := true }
  else
    let db1 := markProcessing msgs jd.messageId
    let resp := generateResponseWithContext p api db1 jd.userMessage jd.chatroomId
    if p.failUpdateCompleted then
      if p.failUpdateFailed then
        { db := db1, threw := true }
      else
        { db := markFailed db1 jd.messageId, threw := true }
    else
      { db := markCompleted db1 jd.messageId resp, threw := false }

/-- The durable (BullMQ) execution of a job: the worker retries the processor
while it throws, up to the given number of remaining attempts
(`defaultJobOptions.attempts`); exhausting them leaves the job failed. -/
def retryJob (p : PoolBehavior) (api : GenApi) (jd : JobData) :
    Nat → List Message → JobOutcome
  | 0, msgs => { db := msgs, threw := true }
  | Nat.succ n, msgs =>
    let o := processGeminiJob p api msgs jd
    if o.threw then retryJob p api jd n o.db else o

/-- Result of `geminiQueue.add` as seen by `addGeminiJob`. -/
structure AddResult where
  db : List Message
  jobId : Option Nat
  threw : Bool
deriving DecidableEq, Repr

/-- The mock queue's `add`: run `processGeminiJob` inline; on success return a
synthesized id (`Date.now().toString()`, modelled by the clock value); if the
job body throws, rethrow to the caller of `add`. -/
def mockQueueAdd (p : PoolBehavior) (api : GenApi) (now : Nat)
    (msgs : List Message) (jd : JobData) : AddResult :=
  let o := processGeminiJob p api msgs jd
  if o.threw then
    { db := o.db, jobId := none, threw := true }
  else
    { db := o.db, jobId := some now, threw := false }

/-- The durable queue's `add`: enqueue only — the job body runs later in the
worker, so `add` neither runs the processor nor depends on the API; it throws
only if the queue backend itself is unavailable. -/
def durableQueueAdd (p : PoolBehavior) (jobId : Nat)
    (msgs : List Message) : AddResult :=
  if p.failQueueAdd then
    { db := msgs, jobId := none, threw := true }
  else
    { db := msgs, jobId := some jobId, threw := false }

/-! ## Cache service (`src/services/cacheService.js`) -/

/-- Error thrown by the Redis client. -/
inductive RedisErr where
  | unavailable
deriving DecidableEq, Repr

/-- One Redis entry written by `setex` (key, remaining TTL, value). -/
structure CacheEntry where
  key : String
  ttl : Nat
  value : String
deriving DecidableEq, Repr

/-- The Redis backend: its key/value store and whether it is currently failing
(every command rejecting). -/
structure RedisState where
  store : List CacheEntry
  failing : Bool
deriving DecidableEq, Repr

/-- `redis.get(key)`. -/
def redisGet (st : RedisState) (k : String) : Except RedisErr (Option String) :=
  if st.failing then Except.error RedisErr.unavailable
  else Except.ok ((st.store.find? (fun e => e.key == k)).map (fun e => e.value))

/-- `redis.setex(key, ttl, value)` (delete-then-insert upsert of the key). -/
def redisSetex (st : RedisState) (k : String) (ttl : Nat) (v : String) :
    Except RedisErr RedisState :=
  if st.failing then Except.error RedisErr.unavailable
  else Except.ok
    { st with store := { key := k, ttl := ttl, value := v } ::
        st.store.filter (fun e => e.key != k) }

/-- `redis.del(key)`. -/
def redisDel (st : RedisState) (k : String) : Except RedisErr RedisState :=
  if st.failing then Except.error RedisErr.unavailable
  else Except.ok { st with store := st.store.filter (fun e => e.key != k) }

/-- `` `${CHATROOM_CACHE_KEY}${userId}` `` with `CHATROOM_CACHE_KEY = 'chatrooms:user:'`. -/
def chatroomCacheKey (userId : Nat) : String :=
  "chatrooms:user:" ++ toString userId

/-- The cached value type: the serialized chatroom list.  `JSON.parse` is an
external collaborator; a `decode` returning `none` stands for a parse throw. -/
structure ChatroomView where
  id : Nat
  title : String
deriving DecidableEq, Repr

/-- `getCachedChatrooms(userId)`: `redis.get`, return the parsed value on a
truthy hit, `null` on a miss, and `null` from the catch block on any thrown
error (backend failure or parse throw).  The empty string is falsy in JS and
is therefore a miss. -/
def getCachedChatrooms (decode : String → Option (List ChatroomView))
    (st : RedisState) (userId : Nat) : Option (List ChatroomView) :=
  match redisGet st (chatroomCacheKey userId) with
  | Except.error _ => none
  | Except.ok none => none
  | Except.ok (some s) =>
    if s = "" then none
    else
      match decode s with
      | none => none
      | some v => some v

/-- `setCachedChatrooms(userId, chatrooms, ttl)`: `redis.setex` of the
serialized list; the catch block swallows any error (state unchanged). -/
def setCachedChatrooms (encode : List ChatroomView → String)
    (st : RedisState) (userId : Nat) (chatrooms : List ChatroomView) (ttl : Nat) :
    RedisState :=
  match redisSetex st (chatroomCacheKey userId) ttl (encode chatrooms) with
  | Except.ok st2 => st2
  | Except.error _ => st

/-- `clearChatroomCache(userId)`: `redis.del` of the user key; the catch block
swallows any error (state unchanged). -/
def clearChatroomCache (st : RedisState) (userId : Nat) : RedisState :=
  match redisDel st (chatroomCacheKey userId) with
  | Except.ok st2 => st2
  | Except.error _ => st

/-! ## Queue construction options and statistics (`src/jobs/geminiQueue.js`) -/

/-- `defaultJobOptions` of the `gemini-responses` queue. -/
structure JobOptions where
  removeOnComplete : Nat
  removeOnFail : Nat
  attempts : Nat
  backoffType : String
  backoffDelay : Nat
  timeoutMs : Nat
deriving DecidableEq, Repr

/-- The `defaultJobOptions` object literal.  The JS literal names `backoff`
twice (delay 1000, then delay 2000); JS object-literal semantics keep the last
occurrence, modelled by the record update overwriting the earlier field. -/
def defaultJobOptions : JobOptions :=
  let firstPass : JobOptions :=
    { removeOnComplete := 100, removeOnFail := 50, attempts := 3,
      backoffType := "exponential", backoffDelay := 1000, timeoutMs := 30000 }
  { firstPass with backoffType := "exponential", backoffDelay := 2000 }

/-- The options object of the `gemini-responses` worker. -/
structure WorkerOptions where
  concurrency : Nat
  lockDuration : Nat
  stalledInterval : Nat
  maxStalledCount : Nat
  lockRenewTime : Nat
  drainDelay : Nat
deriving DecidableEq, Repr

/-- The worker options literal passed to `new Worker('gemini-responses', ...)`. -/
def geminiWorkerOptions : WorkerOptions :=
  { concurrency := 2, lockDuration := 30000, stalledInterval := 15000,
    maxStalledCount := 2, lockRenewTime := 15000, drainDelay := 5000 }

/-- A queue backend as seen by `getQueueStats`: each listing call either
returns the job list for that state or rejects. -/
inductive QErr where
  | backendError
deriving DecidableEq, Repr

/-- The four listing calls of the queue object (job ids per state). -/
structure QueueHandle where
  getWaiting : Except QErr (List Nat)
  getActive : Except QErr (List Nat)
  getCompleted : Except QErr (List Nat)
  getFailed : Except QErr (List Nat)

/-- The record returned by `getQueueStats`. -/
structure QueueStats where
  waiting : Nat
  active : Nat
  completed : Nat
  failed : Nat
  total : Nat
deriving DecidableEq, Repr

/-- The all-zero record returned from the catch block of `getQueueStats`. -/
def zeroQueueStats : QueueStats :=
  { waiting := 0, active := 0, completed := 0, failed := 0, total := 0 }

/-- `getQueueStats()`: throw if the queue is not yet set up, then await the
four listing calls in order; any thrown error lands in the catch block, which
returns the all-zero record.  On success, `total` is the sum of the four
lengths. -/
def getQueueStats (q : Option QueueHandle) : QueueStats :=
  match q with
  | none => zeroQueueStats
  | some qh =>
    match qh.getWaiting with
    | Except.error _ => zeroQueueStats
    | Except.ok w =>
      match qh.getActive with
      | Except.error _ => zeroQueueStats
      | Except.ok a =>
        match qh.getCompleted with
        | Except.error _ => zeroQueueStats
        | Except.ok c =>
          match qh.getFailed with
          | Except.error _ => zeroQueueStats
          | Except.ok f =>
            { waiting := w.length, active := a.length, completed := c.length,
              failed := f.length,
              total := w.length + a.length + c.length + f.length }

/-! ## Chatroom route handlers (`src/routes/chatroom.js`) -/

/-- A row of the `chatrooms` table. -/
structure Chatroom where
  id : Nat
  user_id : Nat
  title : String
  description : Option String
  updated_at : Nat
deriving DecidableEq, Repr

/-- A row of the `users` table (the columns the message route touches). -/
structure UserRow where
  id : Nat
  subscription_tier : String
  daily_usage_count : Nat
deriving DecidableEq, Repr

/-- The relational store, with the next SERIAL values for inserts. -/
structure Db where
  chatrooms : List Chatroom
  messages : List Message
  users : List UserRow
  nextChatroomId : Nat
  nextMsgId : Nat
deriving DecidableEq, Repr

/-- Observable steps of a request, in execution order. -/
inductive Ev where
  | enqueued (jobId : Nat)
  | cacheInvalidate (userId : Nat)
  | respond (code : Nat)
deriving DecidableEq, Repr

/-- The HTTP status the caller sees: the first response sent on this request
(later `next(error)` calls cannot re-send once headers are out). -/
def firstRespond : List Ev → Option Nat
  | [] => none
  | Ev.respond c :: _ => some c
  | _ :: rest => firstRespond rest

/-- `invalidateBeforeSuccessGo uid seen evs`: scanning `evs` left to right with
`seen` recording whether the user's cache key was already invalidated, every
2xx response must come after such an invalidation. -/
def invalidateBeforeSuccessGo (uid : Nat) (seen : Bool) : List Ev → Bool
  | [] => true
  | Ev.cacheInvalidate u :: rest => invalidateBeforeSuccessGo uid (seen || u == uid) rest
  | Ev.respond c :: rest =>
    (decide (c < 200) || decide (299 < c) || seen) && invalidateBeforeSuccessGo uid seen rest
  | Ev.enqueued _ :: rest => invalidateBeforeSuccessGo uid seen rest

/-- Every success (2xx) response in the trace is preceded by an invalidation of
the user's chatroom-list cache key. -/
def invalidateBeforeSuccess (uid : Nat) (evs : List Ev) : Bool :=
  invalidateBeforeSuccessGo uid false evs

/-- JS `String.prototype.trim()`: strip leading and trailing whitespace
(structurally computable model over the character list). -/
def jsTrim (s : String) : String :=
  ⟨((s.data.dropWhile Char.isWhitespace).reverse.dropWhile Char.isWhitespace).reverse⟩

/-- `description?.trim() || null`: trim when present, empty becomes null. -/
def normalizeDescription (description : Option String) : Option String :=
  match description with
  | none => none
  | some d => if jsTrim d = "" then none else some (jsTrim d)

/-- `POST /chatroom`: validate the title, insert the row, clear the user's
chatroom cache, respond 201; a thrown query error goes to `next(error)` (500). -/
def createChatroom (p : PoolBehavior) (db : Db) (cache : RedisState) (now : Nat)
    (userId : Nat) (title : Option String) (description : Option String) :
    Db × RedisState × List Ev :=
  match title with
  | none => (db, cache, [Ev.respond 400])
  | some t =>
    if t = "" then (db, cache, [Ev.respond 400])
    else if (jsTrim t).length = 0 then (db, cache, [Ev.respond 400])
    else if 200 < t.length then (db, cache, [Ev.respond 400])
    else if p.failInsertChatroom then (db, cache, [Ev.respond 500])
    else
      let room : Chatroom :=
        { id := db.nextChatroomId, user_id := userId, title := jsTrim t,
          description := normalizeDescription description, updated_at := now }
      let db2 := { db with chatrooms := db.chatrooms ++ [room],
                           nextChatroomId := db.nextChatroomId + 1 }
      let cache2 := clearChatroomCache cache userId
      (db2, cache2, [Ev.cacheInvalidate userId, Ev.respond 201])

/-- `PUT /chatroom/:id`: validate, `UPDATE ... WHERE id AND user_id RETURNING`
(empty result is 404), clear the user's chatroom cache, respond 200. -/
def updateChatroomRoute (p : PoolBehavior) (db : Db) (cache : RedisState) (now : Nat)
    (userId : Nat) (chatroomId : Option Nat) (title : Option String)
    (description : Option String) : Db × RedisState × List Ev :=
  match chatroomId with
  | none => (db, cache, [Ev.respond 400])
  | some cid =>
    match title with
    | none => (db, cache, [Ev.respond 400])
    | some t =>
      if t = "" then (db, cache, [Ev.respond 400])
      else if (jsTrim t).length = 0 then (db, cache, [Ev.respond 400])
      else if p.failUpdateChatroom then (db, cache, [Ev.respond 500])
      else if db.chatrooms.any (fun ch => ch.id == cid && ch.user_id == userId) then
        let db2 := { db with chatrooms := db.chatrooms.map (fun ch =>
          if ch.id == cid && ch.user_id == userId then
            { ch with title := jsTrim t, description := normalizeDescription description,
                      updated_at := now }
          else ch) }
        let cache2 := clearChatroomCache cache userId
        (db2, cache2, [Ev.cacheInvalidate userId, Ev.respond 200])
      else (db, cache, [Ev.respond 404])

/-- `DELETE /chatroom/:id`: `DELETE ... WHERE id AND user_id RETURNING` (empty
result is 404), clear the user's chatroom cache, respond 200. -/
def deleteChatroomRoute (p : PoolBehavior) (db : Db) (cache : RedisState)
    (userId : Nat) (chatroomId : Option Nat) : Db × RedisState × List Ev :=
  match chatroomId with
  | none => (db, cache, [Ev.respond 400])
  | some cid =>
    if p.failDeleteChatroom then (db, cache, [Ev.respond 500])
    else if db.chatrooms.any (fun ch => ch.id == cid && ch.user_id == userId) then
      let db2 := { db with chatrooms :=
        db.chatrooms.filter (fun ch => !(ch.id == cid && ch.user_id == userId)) }
      let cache2 := clearChatroomCache cache userId
      (db2, cache2, [Ev.cacheInvalidate userId, Ev.respond 200])
    else (db, cache, [Ev.respond 404])

/-- Which queue implementation `addGeminiJob` is talking to: the durable BullMQ
queue, or the development fallback (mock) queue. -/
inductive QueueKind where
  | durable
  | mock
deriving DecidableEq, Repr

/-- `UPDATE users SET daily_usage_count = daily_usage_count + 1 WHERE id = $1`. -/
def incrementUsage (db : Db) (userId : Nat) : Db :=
  { db with users := db.users.map (fun u =>
      if u.id == userId then { u with daily_usage_count := u.daily_usage_count + 1 } else u) }

/-- `POST /chatroom/:id/message`: validate, check chatroom ownership, insert the
user message (`completed`) and the AI placeholder (`pending`), `addGeminiJob`
(under the mock queue this runs the job body inline and rethrows its error),
bump the chatroom timestamp, clear the user's chatroom cache, respond 201, and
finally increment basic-tier usage.  Any error thrown before the response goes
to `next(error)` (500); the usage increment runs after the response was sent. -/
def sendMessage (qk : QueueKind) (p : PoolBehavior) (api : GenApi) (db : Db)
    (cache : RedisState) (now : Nat) (userId : Nat) (tier : String)
    (chatroomId : Option Nat) (content : Option String) :
    Db × RedisState × List Ev :=
  match chatroomId with
  | none => (db, cache, [Ev.respond 400])
  | some cid =>
    match content with
    | none => (db, cache, [Ev.respond 400])
    | some c =>
      if c = "" then (db, cache, [Ev.respond 400])
      else if (jsTrim c).length = 0 then (db, cache, [Ev.respond 400])
      else if p.failSelectChatroom then (db, cache, [Ev.respond 500])
      else if db.chatrooms.any (fun ch => ch.id == cid && ch.user_id == userId) then
        if p.failInsertUserMsg then (db, cache, [Ev.respond 500])
        else
          let userMsg : Message :=
            { id := db.nextMsgId, chatroom_id := cid, user_id := userId,
              content := jsTrim c, message_type := MsgType.user,
              gemini_response := none, status := MsgStatus.completed, created_at := now }
          let db1 := { db with messages := db.messages ++ [userMsg],
                               nextMsgId := db.nextMsgId + 1 }
          if p.failInsertAiMsg then (db1, cache, [Ev.respond 500])
          else
            let aiId := db1.nextMsgId
            let aiMsg : Message :=
              { id := aiId, chatroom_id := cid, user_id := userId,
                content := "Processing your request...", message_type := MsgType.ai,
                gemini_response := none, status := MsgStatus.pending, created_at := now }
            let db2 := { db1 with messages := db1.messages ++ [aiMsg],
                                  nextMsgId := aiId + 1 }
            let jd : JobData :=
              { messageId := aiId, chatroomId := cid, userId := userId,
                userMessage := jsTrim c }
            let addRes :=
              match qk with
              | QueueKind.mock => mockQueueAdd p api now db2.messages jd
              | QueueKind.durable => durableQueueAdd p now db2.messages
            let db3 := { db2 with messages := addRes.db }
            if addRes.threw then (db3, cache, [Ev.respond 500])
            else
              match addRes.jobId with
              | none => (db3, cache, [Ev.respond 500])
              | some jid =>
                if p.failUpdateChatroomTs then
                  (db3, cache, [Ev.enqueued jid, Ev.respond 500])
                else
                  let db4 := { db3 with chatrooms := db3.chatrooms.map (fun ch =>
                    if ch.id == cid then { ch with updated_at := now } else ch) }
                  let cache2 := clearChatroomCache cache userId
                  let db5 :=
                    if tier = "basic" && !p.failIncrementUsage then incrementUsage db4 userId
                    else db4
                  (db5, cache2,
                    [Ev.enqueued jid, Ev.cacheInvalidate userId, Ev.respond 201])
      else (db, cache, [Ev.respond 404])

/-! ## Helper lemmas -/

theorem getMsg_updateMsg (msgs : List Message) (mid : Nat) (g : Message → Message)
    (hg : ∀ m, (g m).id = m.id) :
    getMsg (updateMsg msgs mid g) mid = (getMsg msgs mid).map g := by
  induction msgs with
  | nil => rfl
  | cons m t ih =>
    by_cases h : m.id = mid
    · have hgid : ((g m).id == mid) = true := by simp [hg m, h]
      simp [getMsg, updateMsg, h, List.find?_cons_of_pos, hgid]
    · have h1 : (m.id == mid) = false := by simp [h]
      simp only [getMsg, updateMsg, List.map_cons, h1, Bool.false_eq_true, if_false]
      rw [List.find?_cons_of_neg _ (by simp [h]), List.find?_cons_of_neg _ (by simp [h])]
      exact ih

theorem processGeminiJob_poolOk_threw (api : GenApi) (msgs : List Message) (jd : JobData) :
    (processGeminiJob poolOk api msgs jd).threw = false := by
  simp [processGeminiJob, poolOk]

theorem processGeminiJob_threw (p : PoolBehavior) (api : GenApi)
    (msgs : List Message) (jd : JobData) :
    (processGeminiJob p api msgs jd).threw =
      (p.failUpdateProcessing || p.failUpdateCompleted) := by
  unfold processGeminiJob
  cases h1 : p.failUpdateProcessing <;> cases h2 : p.failUpdateCompleted <;>
    cases h3 : p.failUpdateFailed <;> simp [h1, h2, h3]

theorem processGeminiJob_poolOk_db (api : GenApi) (msgs : List Message) (jd : JobData) :
    (processGeminiJob poolOk api msgs jd).db =
      markCompleted (markProcessing msgs jd.messageId) jd.messageId
        (generateResponse api jd.userMessage
          (fetchHistory (markProcessing msgs jd.messageId) jd.chatroomId)) := by
  simp [processGeminiJob, poolOk, generateResponseWithContext]

theorem getMsg_markProcessing (msgs : List Message) (mid : Nat) :
    getMsg (markProcessing msgs mid) mid =
      (getMsg msgs mid).map (fun m => { m with status := MsgStatus.processing }) := by
  unfold markProcessing
  rw [getMsg_updateMsg]
  exact fun _ => rfl

theorem getMsg_markCompleted (msgs : List Message) (mid : Nat) (resp : String) :
    getMsg (markCompleted msgs mid resp) mid =
      (getMsg msgs mid).map (fun m =>
        { m with gemini_response := some resp, content := resp,
                 status := MsgStatus.completed }) := by
  unfold markCompleted
  rw [getMsg_updateMsg]
  exact fun _ => rfl

theorem getMsg_markFailed (msgs : List Message) (mid : Nat) :
    getMsg (markFailed msgs mid) mid =
      (getMsg msgs mid).map (fun m =>
        { m with status := MsgStatus.failed, content := failedFallbackText }) := by
  unfold markFailed
  rw [getMsg_updateMsg]
  exact fun _ => rfl

theorem getMsg_processGeminiJob_poolOk (api : GenApi) (msgs : List Message)
    (jd : JobData) (m : Message) (hm : getMsg msgs jd.messageId = some m) :
    getMsg (processGeminiJob poolOk api msgs jd).db jd.messageId =
      some { m with
        status := MsgStatus.completed,
        content := generateResponse api jd.userMessage
          (fetchHistory (markProcessing msgs jd.messageId) jd.chatroomId),
        gemini_response := some (generateResponse api jd.userMessage
          (fetchHistory (markProcessing msgs jd.messageId) jd.chatroomId)) } := by
  rw [processGeminiJob_poolOk_db, getMsg_markCompleted, getMsg_markProcessing, hm]
  rfl

/-! ## Concrete inputs used by witnesses and counterexamples -/

/-- Generation collaborator that always returns the text Hello. -/
def wApiHello : GenApi := fun _ => Except.ok "Hello"

/-- Generation collaborator that always returns the text World. -/
def wApiWorld : GenApi := fun _ => Except.ok "World"

/-- Generation collaborator that times out on every call. -/
def wApiTimeout : GenApi := fun _ => Except.error GenErr.timeout

/-- Job data for message 42 in chatroom 1 of user 7. -/
def wJd42 : JobData := { messageId := 42, chatroomId := 1, userId := 7, userMessage := "Hi" }

/-- A pending AI placeholder message with id 42. -/
def wMsgPending : Message :=
  { id := 42, chatroom_id := 1, user_id := 7, content := "Processing your request...",
    message_type := MsgType.ai, gemini_response := none, status := MsgStatus.pending,
    created_at := 5 }

/-- A terminally completed AI message with id 42 and stored response Hello. -/
def wMsgCompleted : Message :=
  { id := 42, chatroom_id := 1, user_id := 7, content := "Hello",
    message_type := MsgType.ai, gemini_response := some "Hello",
    status := MsgStatus.completed, created_at := 5 }

/-! ## C3 -/

/-- C3: for a job processed while the Generation Collaborator returns a text `T`
(healthy persistence), the Job Processor persists `T` as both `content` and
`gemini_response` of the target message and marks its status `completed`, and
the processor run does not throw. -/
theorem claim_C3_success_persists_response (api : GenApi) (T : String)
    (msgs : List Message) (jd : JobData) (m : Message)
    (hapi : ∀ s, api s = Except.ok T)
    (hm : getMsg msgs jd.messageId = some m) :
    (processGeminiJob poolOk api msgs jd).threw = false ∧
    getMsg (processGeminiJob poolOk api msgs jd).db jd.messageId =
      some { m with status := MsgStatus.completed, content := T,
                    gemini_response := some T } := by
  refine ⟨processGeminiJob_poolOk_threw api msgs jd, ?_⟩
  rw [getMsg_processGeminiJob_poolOk api msgs jd m hm]
  simp [generateResponse, hapi]

/-- Witness for C3 at the spec's scenario: collaborator returns Hello for
message 42, which ends completed with response Hello. -/
theorem claim_C3_witness :
    (∀ s, wApiHello s = Except.ok "Hello") ∧
    getMsg [wMsgPending] wJd42.messageId = some wMsgPending ∧
    ((processGeminiJob poolOk wApiHello [wMsgPending] wJd42).threw = false ∧
     getMsg (processGeminiJob poolOk wApiHello [wMsgPending] wJd42).db wJd42.messageId =
       some { wMsgPending with status := MsgStatus.completed, content := "Hello",
                               gemini_response := some "Hello" }) :=
  ⟨fun _ => rfl, rfl,
    claim_C3_success_persists_response wApiHello "Hello" [wMsgPending] wJd42 wMsgPending
      (fun _ => rfl) rfl⟩

/-! ## C1 -/

/-- C1 counterexample: message 42 is terminally completed with stored text
Hello, yet a re-run of the Job Processor (collaborator now returns World)
changes its response text to World — the terminal state is not left unchanged,
because the processor's status writes carry no current-status guard. -/
theorem claim_C1_counterexample :
    (getMsg [wMsgCompleted] 42).map Message.status = some MsgStatus.completed ∧
    (getMsg (processGeminiJob poolOk wApiWorld [wMsgCompleted] wJd42).db 42).map
      Message.content = some "World" ∧
    getMsg (processGeminiJob poolOk wApiWorld [wMsgCompleted] wJd42).db 42 ≠
      getMsg [wMsgCompleted] 42 := by
  decide

/-- C1 amended: a re-run of `processGeminiJob` on a message whose status is
terminal (completed or failed) does not leave it unchanged: the writes are
unconditional (no status guard), so the message is re-marked `completed` with
the collaborator's current text, which replaces the stored response whenever it
differs. -/
theorem claim_C1_amended (api : GenApi) (T : String) (msgs : List Message)
    (jd : JobData) (m : Message)
    (hapi : ∀ s, api s = Except.ok T)
    (hm : getMsg msgs jd.messageId = some m)
    (hterm : m.status = MsgStatus.completed ∨ m.status = MsgStatus.failed) :
    getMsg (processGeminiJob poolOk api msgs jd).db jd.messageId =
      some { m with status := MsgStatus.completed, content := T,
                    gemini_response := some T } ∧
    (T ≠ m.content →
      getMsg (processGeminiJob poolOk api msgs jd).db jd.messageId ≠ some m) := by
  have h : getMsg (processGeminiJob poolOk api msgs jd).db jd.messageId =
      some { m with status := MsgStatus.completed, content := T,
                    gemini_response := some T } := by
    rw [getMsg_processGeminiJob_poolOk api msgs jd m hm]
    simp [generateResponse, hapi]
  refine ⟨h, ?_⟩
  intro hT hC
  rw [h] at hC
  have h2 := congrArg (fun o => Option.map Message.content o) hC
  simp at h2
  exact hT h2

/-- Witness for C1's amended theorem: the completed message 42 is re-processed
and its stored text Hello is overwritten by World. -/
theorem claim_C1_witness :
    ((∀ s, wApiWorld s = Except.ok "World") ∧
     getMsg [wMsgCompleted] wJd42.messageId = some wMsgCompleted ∧
     (wMsgCompleted.status = MsgStatus.completed ∨
      wMsgCompleted.status = MsgStatus.failed)) ∧
    (getMsg (processGeminiJob poolOk wApiWorld [wMsgCompleted] wJd42).db wJd42.messageId =
       some { wMsgCompleted with status := MsgStatus.completed, content := "World",
                                 gemini_response := some "World" } ∧
     ("World" ≠ wMsgCompleted.content →
       getMsg (processGeminiJob poolOk wApiWorld [wMsgCompleted] wJd42).db
         wJd42.messageId ≠ some wMsgCompleted)) :=
  ⟨⟨fun _ => rfl, rfl, Or.inl rfl⟩,
    claim_C1_amended wApiWorld "World" [wMsgCompleted] wJd42 wMsgCompleted
      (fun _ => rfl) rfl (Or.inl rfl)⟩

/-! ## C2 -/

/-- C2 counterexample: the collaborator times out on every call, yet the
message ends `completed` (not `failed`) with the apology fallback as its
content, the processor does not throw, and the durable retry loop performs a
single attempt (no retries happen). -/
theorem claim_C2_counterexample :
    (processGeminiJob poolOk wApiTimeout [wMsgPending] wJd42).threw = false ∧
    (getMsg (processGeminiJob poolOk wApiTimeout [wMsgPending] wJd42).db 42).map
      Message.status = some MsgStatus.completed ∧
    (getMsg (processGeminiJob poolOk wApiTimeout [wMsgPending] wJd42).db 42).map
      Message.content = some apologyFallbackText ∧
    (getMsg (processGeminiJob poolOk wApiTimeout [wMsgPending] wJd42).db 42).map
      Message.status ≠ some MsgStatus.failed ∧
    retryJob poolOk wApiTimeout wJd42 3 [wMsgPending] =
      processGeminiJob poolOk wApiTimeout [wMsgPending] wJd42 := by
  decide

/-- C2 amended: when the Generation Collaborator call fails on every attempt
(healthy persistence), the generation wrapper swallows the error, so the job
does not throw, no retry happens (the durable retry loop is a single attempt),
and the target message ends with status `completed` and the user-safe apology
fallback persisted as its content and response; the terminal `failed` state is
never produced by generation errors. -/
theorem claim_C2_amended (api : GenApi) (msgs : List Message) (jd : JobData)
    (m : Message)
    (hapi : ∀ s, ∃ e, api s = Except.error e)
    (hm : getMsg msgs jd.messageId = some m) :
    (processGeminiJob poolOk api msgs jd).threw = false ∧
    getMsg (processGeminiJob poolOk api msgs jd).db jd.messageId =
      some { m with status := MsgStatus.completed, content := apologyFallbackText,
                    gemini_response := some apologyFallbackText } ∧
    retryJob poolOk api jd 3 msgs = processGeminiJob poolOk api msgs jd := by
  have hgen : ∀ msg hist, generateResponse api msg hist = apologyFallbackText := by
    intro msg hist
    obtain ⟨e, he⟩ := hapi (buildPrompt msg hist)
    simp [generateResponse, he]
  refine ⟨processGeminiJob_poolOk_threw api msgs jd, ?_, ?_⟩
  · rw [getMsg_processGeminiJob_poolOk api msgs jd m hm, hgen]
  · simp [retryJob, processGeminiJob_poolOk_threw]

/-- Witness for C2's amended theorem at the spec's timeout scenario. -/
theorem claim_C2_witness :
    ((∀ s, ∃ e, wApiTimeout s = Except.error e) ∧
     getMsg [wMsgPending] wJd42.messageId = some wMsgPending) ∧
    ((processGeminiJob poolOk wApiTimeout [wMsgPending] wJd42).threw = false ∧
     getMsg (processGeminiJob poolOk wApiTimeout [wMsgPending] wJd42).db
       wJd42.messageId =
       some { wMsgPending with status := MsgStatus.completed,
                               content := apologyFallbackText,
                               gemini_response := some apologyFallbackText } ∧
     retryJob poolOk wApiTimeout wJd42 3 [wMsgPending] =
       processGeminiJob poolOk wApiTimeout [wMsgPending] wJd42) :=
  ⟨⟨fun _ => ⟨GenErr.timeout, rfl⟩, rfl⟩,
    claim_C2_amended wApiTimeout [wMsgPending] wJd42 wMsgPending
      (fun _ => ⟨GenErr.timeout, rfl⟩) rfl⟩

/-! ## C7 -/

/-- C7: with healthy persistence, for every fixed Generation Collaborator
behavior and every job input, the fallback (mock) executor — which runs the Job
Processor synchronously inline and returns a synthesized job id — leaves the
messages table in exactly the state the durable queue's retrying worker leaves
it in, and its enqueue returns normally with a job id. -/
theorem claim_C7_fallback_parity (api : GenApi) (now : Nat) (msgs : List Message)
    (jd : JobData) :
    (mockQueueAdd poolOk api now msgs jd).db = (retryJob poolOk api jd 3 msgs).db ∧
    (mockQueueAdd poolOk api now msgs jd).jobId = some now ∧
    (mockQueueAdd poolOk api now msgs jd).threw = false := by
  have h := processGeminiJob_poolOk_threw api msgs jd
  refine ⟨?_, ?_, ?_⟩ <;> simp [mockQueueAdd, retryJob, h]

/-! ## C9 -/

/-- C9: the queue's default job options and the worker options carry exactly
the specified limits: 3 total attempts, exponential backoff with base delay in
the 1–2 second range (the duplicated `backoff` literal key resolves to 2000ms),
a 30s job timeout, 30s lock duration, 15s lock renewal, 15s stalled sweep, at
most 2 stall-retries, and worker concurrency 2. -/
theorem claim_C9_queue_worker_limits :
    defaultJobOptions.attempts = 3 ∧
    defaultJobOptions.backoffType = "exponential" ∧
    1000 ≤ defaultJobOptions.backoffDelay ∧
    defaultJobOptions.backoffDelay ≤ 2000 ∧
    defaultJobOptions.timeoutMs = 30000 ∧
    geminiWorkerOptions.lockDuration = 30000 ∧
    geminiWorkerOptions.lockRenewTime = 15000 ∧
    geminiWorkerOptions.stalledInterval = 15000 ∧
    geminiWorkerOptions.maxStalledCount = 2 ∧
    geminiWorkerOptions.concurrency = 2 := by
  decide

/-! ## C10 -/

/-- C10: `getQueueStats` always returns a record whose `total` is the sum of
the four counts; with an uninitialized queue it returns the all-zero record,
and so it does on any backend error during the listing calls — errors never
propagate to the caller. -/
theorem claim_C10_stats_safe :
    (∀ q, (getQueueStats q).total =
       (getQueueStats q).waiting + (getQueueStats q).active +
       (getQueueStats q).completed + (getQueueStats q).failed) ∧
    getQueueStats none = zeroQueueStats ∧
    (∀ qh, (qh.getWaiting.isOk = false ∨ qh.getActive.isOk = false ∨
            qh.getCompleted.isOk = false ∨ qh.getFailed.isOk = false) →
       getQueueStats (some qh) = zeroQueueStats) := by
  refine ⟨?_, rfl, ?_⟩
  · intro q
    match q with
    | none => rfl
    | some qh =>
      rcases qh with ⟨gw, ga, gc, gf⟩
      cases gw <;> cases ga <;> cases gc <;> cases gf <;> rfl
  · intro qh h
    rcases qh with ⟨gw, ga, gc, gf⟩
    cases gw <;> cases ga <;> cases gc <;> cases gf <;>
      first
      | rfl
      | (exfalso; simp [Except.isOk, Except.toBool] at h)

/-- A queue handle whose first listing call rejects. -/
def wErrQueueHandle : QueueHandle :=
  { getWaiting := Except.error QErr.backendError, getActive := Except.ok [],
    getCompleted := Except.ok [], getFailed := Except.ok [] }

/-- Witness for C10: a failing backend yields the all-zero record. -/
theorem claim_C10_witness :
    (wErrQueueHandle.getWaiting.isOk = false ∨ wErrQueueHandle.getActive.isOk = false ∨
     wErrQueueHandle.getCompleted.isOk = false ∨ wErrQueueHandle.getFailed.isOk = false) ∧
    getQueueStats (some wErrQueueHandle) = zeroQueueStats :=
  ⟨Or.inl rfl, claim_C10_stats_safe.2.2 wErrQueueHandle (Or.inl rfl)⟩

/-! ## C6 -/

/-- C6: when the cache backend is failing, `getCachedChatrooms` returns a miss
(`null`), and `setCachedChatrooms` and `clearChatroomCache` return normally
leaving the backend state unchanged — cache errors never propagate to the
caller, so cache unavailability degrades to always-miss. -/
theorem claim_C6_cache_errors_swallowed :
    (∀ decode st uid, st.failing = true → getCachedChatrooms decode st uid = none) ∧
    (∀ encode st uid rooms ttl, st.failing = true →
       setCachedChatrooms encode st uid rooms ttl = st) ∧
    (∀ st uid, st.failing = true → clearChatroomCache st uid = st) := by
  refine ⟨?_, ?_, ?_⟩ <;> intros <;>
    simp_all [getCachedChatrooms, setCachedChatrooms, clearChatroomCache,
      redisGet, redisSetex, redisDel]

/-- A failing Redis backend. -/
def wFailingRedis : RedisState := { store := [], failing := true }

/-- Witness for C6 at a concrete failing backend. -/
theorem claim_C6_witness :
    wFailingRedis.failing = true ∧
    getCachedChatrooms (fun _ => none) wFailingRedis 7 = none ∧
    setCachedChatrooms (fun _ => "") wFailingRedis 7 [] 300 = wFailingRedis ∧
    clearChatroomCache wFailingRedis 7 = wFailingRedis :=
  ⟨rfl,
    claim_C6_cache_errors_swallowed.1 (fun _ => none) wFailingRedis 7 rfl,
    claim_C6_cache_errors_swallowed.2.1 (fun _ => "") wFailingRedis 7 [] 300 rfl,
    claim_C6_cache_errors_swallowed.2.2 wFailingRedis 7 rfl⟩

/-! ## C8 -/

instance : IsTotal Message createdDesc :=
  ⟨fun a b => Nat.le_total b.created_at a.created_at⟩

instance : IsTrans Message createdDesc :=
  ⟨fun _ _ _ hab hbc => Nat.le_trans hbc hab⟩

theorem orderedInsert_of_forall_not {α : Type} (r : α → α → Prop) [DecidableRel r]
    (a : α) : ∀ l : List α, (∀ b ∈ l, ¬ r a b) →
      List.orderedInsert r a l = l ++ [a] := by
  intro l
  induction l with
  | nil => intro _; rfl
  | cons b t ih =>
    intro h
    have hb : ¬ r a b := h b (List.mem_cons_self b t)
    simp only [List.orderedInsert, if_neg hb]
    rw [ih (fun x hx => h x (List.mem_cons_of_mem b hx))]
    simp

theorem insertionSort_desc_of_strict (l : List Message)
    (h : l.Pairwise (fun a b => a.created_at < b.created_at)) :
    List.insertionSort createdDesc l = l.reverse := by
  induction l with
  | nil => rfl
  | cons a t ih =>
    rw [List.pairwise_cons] at h
    obtain ⟨ha, ht⟩ := h
    simp only [List.insertionSort]
    rw [ih ht, orderedInsert_of_forall_not]
    · simp
    · intro b hb
      rw [List.mem_reverse] at hb
      have hlt := ha b hb
      unfold createdDesc
      omega

/-- C8: the conversation context assembled by the history query contains at
most 10 messages, all of them completed messages of the requested chatroom, in
chronological (oldest-first) order; and when the messages table is itself in
strict chronological order, the context is exactly the last (up to) 10
completed messages of that chatroom. -/
theorem claim_C8_context_window (msgs : List Message) (cid : Nat) :
    (fetchHistory msgs cid).length ≤ 10 ∧
    (∀ m ∈ fetchHistory msgs cid, m.chatroom_id = cid ∧ m.status = MsgStatus.completed) ∧
    (fetchHistory msgs cid).Pairwise (fun a b => a.created_at ≤ b.created_at) ∧
    (msgs.Pairwise (fun a b => a.created_at < b.created_at) →
      fetchHistory msgs cid =
        ((msgs.filter (fun m =>
            m.chatroom_id == cid && m.status == MsgStatus.completed)).reverse.take
          10).reverse) := by
  refine ⟨?_, ?_, ?_, ?_⟩
  · simp only [fetchHistory, List.length_reverse, List.length_take]
    exact Nat.min_le_left _ _
  · intro m hm
    unfold fetchHistory at hm
    rw [List.mem_reverse] at hm
    have hm2 := List.take_subset 10 _ hm
    rw [(List.perm_insertionSort createdDesc _).mem_iff] at hm2
    have hm3 := (List.mem_filter.mp hm2).2
    simp only [Bool.and_eq_true, beq_iff_eq] at hm3
    exact hm3
  · unfold fetchHistory
    rw [List.pairwise_reverse]
    have hs : List.Sorted createdDesc
        (List.insertionSort createdDesc (msgs.filter (fun m =>
          m.chatroom_id == cid && m.status == MsgStatus.completed))) :=
      List.sorted_insertionSort createdDesc _
    exact (hs.sublist (List.take_sublist 10 _)).imp (fun h => h)
  · intro hstrict
    unfold fetchHistory
    rw [insertionSort_desc_of_strict _ (hstrict.filter _)]

/-- A small messages table in strict chronological order, mixing chatrooms and
statuses. -/
def wHistMsgs : List Message :=
  [{ id := 1, chatroom_id := 1, user_id := 7, content := "a",
     message_type := MsgType.user, gemini_response := none,
     status := MsgStatus.completed, created_at := 1 },
   { id := 2, chatroom_id := 1, user_id := 7, content := "b",
     message_type := MsgType.ai, gemini_response := none,
     status := MsgStatus.pending, created_at := 2 },
   { id := 3, chatroom_id := 2, user_id := 8, content := "c",
     message_type := MsgType.user, gemini_response := none,
     status := MsgStatus.completed, created_at := 3 },
   { id := 4, chatroom_id := 1, user_id := 7, content := "d",
     message_type := MsgType.ai, gemini_response := some "d",
     status := MsgStatus.completed, created_at := 4 }]

/-- Witness for C8 on a concrete strictly-chronological table. -/
theorem claim_C8_witness :
    wHistMsgs.Pairwise (fun a b => a.created_at < b.created_at) ∧
    fetchHistory wHistMsgs 1 =
      ((wHistMsgs.filter (fun m =>
          m.chatroom_id == 1 && m.status == MsgStatus.completed)).reverse.take
        10).reverse :=
  ⟨by decide, (claim_C8_context_window wHistMsgs 1).2.2.2 (by decide)⟩

/-! ## C5 -/

set_option maxHeartbeats 1000000 in
/-- C5: in every chatroom-mutating handler (create, update, delete chatroom and
send message, under either queue implementation) and on every input and backend
behavior, any success (2xx) response in the request trace is preceded by an
invalidation of the requesting user's chatroom-list cache key. -/
theorem claim_C5_invalidate_before_success :
    (∀ p db cache now uid title desc,
       invalidateBeforeSuccess uid
         (createChatroom p db cache now uid title desc).2.2 = true) ∧
    (∀ p db cache now uid cid title desc,
       invalidateBeforeSuccess uid
         (updateChatroomRoute p db cache now uid cid title desc).2.2 = true) ∧
    (∀ p db cache uid cid,
       invalidateBeforeSuccess uid
         (deleteChatroomRoute p db cache uid cid).2.2 = true) ∧
    (∀ qk p api db cache now uid tier cid content,
       invalidateBeforeSuccess uid
         (sendMessage qk p api db cache now uid tier cid content).2.2 = true) := by
  refine ⟨?_, ?_, ?_, ?_⟩
  · intro p db cache now uid title desc
    unfold createChatroom
    repeat' split
    all_goals simp [invalidateBeforeSuccess, invalidateBeforeSuccessGo]
  · intro p db cache now uid cid title desc
    unfold updateChatroomRoute
    repeat' split
    all_goals simp [invalidateBeforeSuccess, invalidateBeforeSuccessGo]
  · intro p db cache uid cid
    unfold deleteChatroomRoute
    repeat' split
    all_goals simp [invalidateBeforeSuccess, invalidateBeforeSuccessGo]
  · intro qk p api db cache now uid tier cid content
    unfold sendMessage mockQueueAdd durableQueueAdd
    repeat' split
    all_goals simp_all [invalidateBeforeSuccess, invalidateBeforeSuccessGo]
    all_goals repeat' split
    all_goals simp_all [invalidateBeforeSuccessGo]

/-! ## C4 -/

/-- Pool behavior where only the completed-write query of the job body rejects. -/
def wPFailCompleted : PoolBehavior := { poolOk with failUpdateCompleted := true }

/-- A store with chatroom 1 owned by user 7. -/
def wDb4 : Db :=
  { chatrooms := [{ id := 1, user_id := 7, title := "t", description := none,
                    updated_at := 0 }],
    messages := [],
    users := [{ id := 7, subscription_tier := "basic", daily_usage_count := 0 }],
    nextChatroomId := 2, nextMsgId := 10 }

/-- A healthy cache backend. -/
def wCacheOk : RedisState := { store := [], failing := false }

/-- C4 counterexample: with a job body that throws (its completed-write query
rejects), the message-submission handler under the fallback (mock) executor
answers the HTTP caller with 500 — the job-body error propagated — while the
identical request under the durable queue answers 201. -/
theorem claim_C4_counterexample :
    firstRespond (sendMessage QueueKind.mock wPFailCompleted wApiHello wDb4 wCacheOk
      100 7 "basic" (some 1) (some "Hello")).2.2 = some 500 ∧
    firstRespond (sendMessage QueueKind.durable wPFailCompleted wApiHello wDb4 wCacheOk
      100 7 "basic" (some 1) (some "Hello")).2.2 = some 201 := by
  decide

/-- C4 amended: under the durable queue the HTTP response is independent of the
job body (the Gemini API behavior and the job's query-failure flags), so per-job
errors never propagate to the HTTP caller; under the fallback (mock) executor
the job body runs inside the enqueue call, and whenever the handler reaches the
enqueue and the job body throws, the HTTP caller receives a 500 error
response. -/
theorem claim_C4_amended :
    (∀ (p : PoolBehavior) (api api2 : GenApi) (b1 b2 b3 b4 : Bool) (db : Db)
       (cache : RedisState) (now uid : Nat) (tier : String) (cid : Option Nat)
       (content : Option String),
       (sendMessage QueueKind.durable p api db cache now uid tier cid content).2.2 =
       (sendMessage QueueKind.durable
         { p with failUpdateProcessing := b1, failSelectHistory := b2,
                  failUpdateCompleted := b3, failUpdateFailed := b4 }
         api2 db cache now uid tier cid content).2.2) ∧
    (∀ (p : PoolBehavior) (api : GenApi) (db : Db) (cache : RedisState)
       (now uid : Nat) (tier : String) (cid : Nat) (c : String),
       (p.failUpdateProcessing || p.failUpdateCompleted) = true →
       p.failSelectChatroom = false →
       p.failInsertUserMsg = false →
       p.failInsertAiMsg = false →
       ¬ c = "" →
       ¬ (jsTrim c).length = 0 →
       db.chatrooms.any (fun ch => ch.id == cid && ch.user_id == uid) = true →
       firstRespond (sendMessage QueueKind.mock p api db cache now uid tier
         (some cid) (some c)).2.2 = some 500) := by
  constructor
  · intro p api api2 b1 b2 b3 b4 db cache now uid tier cid content
    rfl
  · intro p api db cache now uid tier cid c hthrow h1 h2 h3 hc0 hc1 hroom
    simp [sendMessage, mockQueueAdd, processGeminiJob_threw, h1, h2, h3, hc0, hc1,
      hroom, hthrow, firstRespond]

/-- Witness for C4's amended theorem: the mock executor surfaces the job-body
error as a 500 response at a concrete request. -/
theorem claim_C4_witness :
    ((wPFailCompleted.failUpdateProcessing || wPFailCompleted.failUpdateCompleted) = true ∧
     wPFailCompleted.failSelectChatroom = false ∧
     wPFailCompleted.failInsertUserMsg = false ∧
     wPFailCompleted.failInsertAiMsg = false ∧
     ¬ "Hello" = "" ∧
     ¬ (jsTrim "Hello").length = 0 ∧
     wDb4.chatrooms.any (fun ch => ch.id == 1 && ch.user_id == 7) = true) ∧
    firstRespond (sendMessage QueueKind.mock wPFailCompleted wApiHello wDb4 wCacheOk
      55 7 "basic" (some 1) (some "Hello")).2.2 = some 500 :=
  ⟨⟨rfl, rfl, rfl, rfl, by decide, by decide, rfl⟩,
    claim_C4_amended.2 wPFailCompleted wApiHello wDb4 wCacheOk 55 7 "basic" 1 "Hello"
      rfl rfl rfl rfl (by decide) (by decide) rfl⟩
